import Mathlib

/-!
Verification development for the Banter repository: a shallow embedding of the
Bitget affiliate ETL pipeline (`src/api/bitget_client.py`, `src/etl/bitget_etl.py`,
`src/models/etl_models.py`) together with theorems settling the specification
claims about it.

Conventions of the embedding:
* bytes are `Nat`s below 256, 32-bit words are `Nat`s kept reduced modulo `2 ^ 32`;
* Python `Optional` arguments become `Option`; Python `x or y` on numbers keeps
  its falsy-zero semantics (`pyOrNat`, `pyOrInt`);
* fallible Python code returns `Except PyErr`; an identifier that is bound in no
  enclosing scope evaluates to a `NameError`, exactly as in CPython;
* the HTTP layer is an oracle `fetch : Nat → Except PyErr (List α)` giving the
  outcome of requesting each page, and the bronze sink is an explicit
  `sink : List α → Nat → Except PyErr Unit` argument, mirroring how the
  repository's own tests stub `BitgetETL._save_to_bronze`;
* reads of attributes the repository never defines
  (`self.etl_config.max_page_size`, `self.time_window`), subscription of
  non-subscriptable records (`rec["uid"]`), and `**`-unpacking of non-mapping
  `BaseModel` instances are modelled as the `AttributeError` / `TypeError`
  raises CPython produces at those expressions.
-/

set_option maxRecDepth 100000

namespace Banter

/-- Python-level runtime errors that the modelled code can raise. -/
inductive PyErr where
  | nameError (ident : String)
  | apiRequestError (msg : String)
  | validationError (field : String)
  | attributeError (attr : String)
  | typeError (msg : String)
  | indentationError (msg : String)
  deriving Repr, DecidableEq

/-- Subset of Python values appearing in request parameter dicts and raw
API records: strings, integers and `None`. -/
inductive PyVal where
  | pystr (s : String)
  | pyint (n : Int)
  | pynone
  deriving Repr, DecidableEq

/-- Python `a or b` for an optional integer argument: `None` and `0` are falsy. -/
def pyOrInt : Option Int → Int → Int
  | some v, d => if v = 0 then d else v
  | none, d => d

/-- Python `a or b` for an optional natural-number argument: `None` and `0` are falsy. -/
def pyOrNat : Option Nat → Nat → Nat
  | some v, d => if v = 0 then d else v
  | none, d => d

/-! ### SHA-256 over byte lists (FIPS 180-4), used by `hmac.new(…, hashlib.sha256)` -/

/-- Reduce a natural number to a 32-bit word. -/
def w32 (n : Nat) : Nat := n % 4294967296

/-- 32-bit modular addition. -/
def wadd (a b : Nat) : Nat := w32 (a + b)

/-- Right rotation of a 32-bit word by `n` bits. -/
def rotr (n x : Nat) : Nat := w32 ((x >>> n) ||| (x <<< (32 - n)))

/-- SHA-256 `Ch` function. -/
def shaCh (x y z : Nat) : Nat := (x &&& y) ^^^ ((x ^^^ 4294967295) &&& z)

/-- SHA-256 `Maj` function. -/
def shaMaj (x y z : Nat) : Nat := (x &&& y) ^^^ (x &&& z) ^^^ (y &&& z)

/-- SHA-256 big sigma 0. -/
def bigS0 (x : Nat) : Nat := rotr 2 x ^^^ rotr 13 x ^^^ rotr 22 x

/-- SHA-256 big sigma 1. -/
def bigS1 (x : Nat) : Nat := rotr 6 x ^^^ rotr 11 x ^^^ rotr 25 x

/-- SHA-256 small sigma 0. -/
def smallS0 (x : Nat) : Nat := rotr 7 x ^^^ rotr 18 x ^^^ (x >>> 3)

/-- SHA-256 small sigma 1. -/
def smallS1 (x : Nat) : Nat := rotr 17 x ^^^ rotr 19 x ^^^ (x >>> 10)

/-- SHA-256 round constants. -/
def shaK : List Nat :=
  [1116352408, 1899447441, 3049323471, 3921009573, 961987163, 1508970993,
   2453635748, 2870763221, 3624381080, 310598401, 607225278, 1426881987,
   1925078388, 2162078206, 2614888103, 3248222580, 3835390401, 4022224774,
   264347078, 604807628, 770255983, 1249150122, 1555081692, 1996064986,
   2554220882, 2821834349, 2952996808, 3210313671, 3336571891, 3584528711,
   113926993, 338241895, 666307205, 773529912, 1294757372, 1396182291,
   1695183700, 1986661051, 2177026350, 2456956037, 2730485921, 2820302411,
   3259730800, 3345764771, 3516065817, 3600352804, 4094571909, 275423344,
   430227734, 506948616, 659060556, 883997877, 958139571, 1322822218,
   1537002063, 1747873779, 1955562222, 2024104815, 2227730452, 2361852424,
   2428436474, 2756734187, 3204031479, 3329325298]

/-- SHA-256 initial hash state. -/
def shaH0 : List Nat :=
  [1779033703, 3144134277, 1013904242, 2773480762,
   1359893119, 2600822924, 528734635, 1541459225]

/-- Big-endian 8-byte encoding of a bit length. -/
def be64 (n : Nat) : List Nat :=
  [(n >>> 56) &&& 255, (n >>> 48) &&& 255, (n >>> 40) &&& 255, (n >>> 32) &&& 255,
   (n >>> 24) &&& 255, (n >>> 16) &&& 255, (n >>> 8) &&& 255, n &&& 255]

/-- SHA-256 message padding: append `0x80`, zero bytes up to 56 mod 64, then the
bit length as a big-endian 64-bit integer. -/
def sha256Pad (msg : List Nat) : List Nat :=
  let L := msg.length
  let z := (120 - (L + 1) % 64) % 64
  msg ++ [128] ++ List.replicate z 0 ++ be64 (8 * L)

/-- Group a byte list into big-endian 32-bit words. -/
def toWordsBE : List Nat → List Nat
  | b1 :: b2 :: b3 :: b4 :: rest =>
      ((((b1 <<< 8) ||| b2) <<< 8 ||| b3) <<< 8 ||| b4) :: toWordsBE rest
  | _ => []

/-- Split the first `n` 64-byte blocks off a byte list. -/
def chunk64Aux : Nat → List Nat → List (List Nat)
  | 0, _ => []
  | n + 1, l => l.take 64 :: chunk64Aux n (l.drop 64)

/-- Split a (padded) byte list into 64-byte blocks. -/
def chunk64 (l : List Nat) : List (List Nat) := chunk64Aux ((l.length + 63) / 64) l

/-- Extend the 16-word message schedule by `count` further words. -/
def extendW (w : List Nat) : Nat → List Nat
  | 0 => w
  | n + 1 =>
      let t := w.length
      extendW (w ++ [wadd (wadd (smallS1 (w.getD (t - 2) 0)) (w.getD (t - 7) 0))
                          (wadd (smallS0 (w.getD (t - 15) 0)) (w.getD (t - 16) 0))]) n

/-- Working state of the SHA-256 compression function. -/
structure ShaState where
  a : Nat
  b : Nat
  c : Nat
  d : Nat
  e : Nat
  f : Nat
  g : Nat
  h : Nat
  deriving Repr, DecidableEq

/-- One SHA-256 compression round for a schedule word and round constant. -/
def shaRound (st : ShaState) (wk : Nat × Nat) : ShaState :=
  let t1 := wadd (wadd (wadd (wadd st.h (bigS1 st.e)) (shaCh st.e st.f st.g)) wk.2) wk.1
  let t2 := wadd (bigS0 st.a) (shaMaj st.a st.b st.c)
  ⟨wadd t1 t2, st.a, st.b, st.c, wadd st.d t1, st.e, st.f, st.g⟩

/-- Process one 64-byte block, updating the eight-word hash value. -/
def shaBlock (hv : List Nat) (block : List Nat) : List Nat :=
  let w := extendW (toWordsBE block) 48
  let st0 : ShaState :=
    ⟨hv.getD 0 0, hv.getD 1 0, hv.getD 2 0, hv.getD 3 0,
     hv.getD 4 0, hv.getD 5 0, hv.getD 6 0, hv.getD 7 0⟩
  let st := (w.zip shaK).foldl shaRound st0
  [wadd (hv.getD 0 0) st.a, wadd (hv.getD 1 0) st.b, wadd (hv.getD 2 0) st.c,
   wadd (hv.getD 3 0) st.d, wadd (hv.getD 4 0) st.e, wadd (hv.getD 5 0) st.f,
   wadd (hv.getD 6 0) st.g, wadd (hv.getD 7 0) st.h]

/-- Big-endian byte serialization of a 32-bit word. -/
def wordBytesBE (w : Nat) : List Nat :=
  [(w >>> 24) &&& 255, (w >>> 16) &&& 255, (w >>> 8) &&& 255, w &&& 255]

/-- SHA-256 digest (32 bytes) of a byte list. -/
def sha256 (msg : List Nat) : List Nat :=
  let hv := (chunk64 (sha256Pad msg)).foldl shaBlock shaH0
  hv.foldr (fun w acc => wordBytesBE w ++ acc) []

/-! ### HMAC-SHA256 (RFC 2104) and Base64, modelling `hmac.new` and `base64.b64encode` -/

/-- HMAC-SHA256 of a message under a key, both byte lists (block size 64). -/
def hmacSha256 (key msg : List Nat) : List Nat :=
  let k0 := if key.length > 64 then sha256 key else key
  let k := k0 ++ List.replicate (64 - k0.length) 0
  let ipad := k.map (fun b => b ^^^ 54)
  let opad := k.map (fun b => b ^^^ 92)
  sha256 (opad ++ sha256 (ipad ++ msg))

/-- Base64 alphabet characters. -/
def b64Chars : List Char :=
  "ABCDEFGHIJKLMNOPQRSTUVWXYZabcdefghijklmnopqrstuvwxyz0123456789+/".toList

/-- Alphabet lookup for Base64 encoding. -/
def b64Char (n : Nat) : Char := b64Chars.getD n 'A'

/-- Standard Base64 encoding (with padding) of a byte list. -/
def base64Encode : List Nat → String
  | [] => ""
  | [b1] =>
      String.mk [b64Char (b1 >>> 2), b64Char ((b1 &&& 3) <<< 4)] ++ "=="
  | [b1, b2] =>
      String.mk [b64Char (b1 >>> 2), b64Char (((b1 &&& 3) <<< 4) ||| (b2 >>> 4)),
                 b64Char ((b2 &&& 15) <<< 2)] ++ "="
  | b1 :: b2 :: b3 :: rest =>
      String.mk [b64Char (b1 >>> 2), b64Char (((b1 &&& 3) <<< 4) ||| (b2 >>> 4)),
                 b64Char (((b2 &&& 15) <<< 2) ||| (b3 >>> 6)), b64Char (b3 &&& 63)] ++
      base64Encode rest

/-- UTF-8 encoding of one Unicode code point. -/
def utf8Char (c : Char) : List Nat :=
  let n := c.toNat
  if n < 128 then [n]
  else if n < 2048 then [192 ||| (n >>> 6), 128 ||| (n &&& 63)]
  else if n < 65536 then
    [224 ||| (n >>> 12), 128 ||| ((n >>> 6) &&& 63), 128 ||| (n &&& 63)]
  else
    [240 ||| (n >>> 18), 128 ||| ((n >>> 12) &&& 63),
     128 ||| ((n >>> 6) &&& 63), 128 ||| (n &&& 63)]

/-- UTF-8 encoding of a string, modelling Python's `str.encode` with no arguments. -/
def utf8 (s : String) : List Nat :=
  s.data.foldr (fun c acc => utf8Char c ++ acc) []

/-- ASCII upper-casing of one character. -/
def upperChar (c : Char) : Char :=
  if 'a' ≤ c ∧ c ≤ 'z' then Char.ofNat (c.toNat - 32) else c

/-- ASCII upper-casing of a string, modelling `str.upper()` on the ASCII method
names used by the client. -/
def upperAscii (s : String) : String := String.mk (s.data.map upperChar)

/-! ### Request signing, `BitgetClient._sign_request` (src/api/bitget_client.py:80-105) -/

/-- Embedding of `BitgetClient._sign_request`: choose the body component
(`body` only when it is non-empty and the upper-cased method is POST),
concatenate `timestamp + method.upper() + request_path + body_str`, and return
the Base64 HMAC-SHA256 of its UTF-8 bytes under the UTF-8 api secret. -/
def sign_request (api_secret timestamp method request_path : String)
    (body : String := "") : String :=
  let body_str := if body ≠ "" && upperAscii method == "POST" then body else ""
  let message := timestamp ++ upperAscii method ++ request_path ++ body_str
  base64Encode (hmacSha256 (utf8 api_secret) (utf8 message))

/-! ### Request body construction, `BitgetClient._make_request` (src/api/bitget_client.py:119-173)

Request parameter dicts are modelled as insertion-ordered association lists
(Python 3.7+ dicts preserve insertion order). -/

/-- Python `repr` of one of the parameter values (`str(...)` on a dict uses the
`repr` of each value): strings are wrapped in single quotes, `None` prints as
`None`. The modelled strings contain no quote or escape characters. -/
def pyReprVal : PyVal → String
  | .pystr s => "'" ++ s ++ "'"
  | .pyint n => toString n
  | .pynone => "None"

/-- Python `str(params)` on a dict: `\x7b'k1': v1, 'k2': v2\x7d`. -/
def pyStrDict (params : List (String × PyVal)) : String :=
  "\x7b" ++
    String.intercalate ", " (params.map fun kv => "'" ++ kv.1 ++ "': " ++ pyReprVal kv.2) ++
  "\x7d"

/-- JSON serialization of one parameter value as produced by `json.dumps`:
strings are double-quoted, `None` becomes `null`. -/
def jsonVal : PyVal → String
  | .pystr s => "\"" ++ s ++ "\""
  | .pyint n => toString n
  | .pynone => "null"

/-- The serialization `json.dumps(params)` that `requests.post(url, json=params)`
transmits as the HTTP body: `\x7b"k1": v1, "k2": v2\x7d` with default separators. -/
def jsonDumps (params : List (String × PyVal)) : String :=
  "\x7b" ++
    String.intercalate ", " (params.map fun kv => "\"" ++ kv.1 ++ "\": " ++ jsonVal kv.2) ++
  "\x7d"

/-- The body string `_make_request` feeds into `_sign_request`
(src/api/bitget_client.py:145-148): the empty string, replaced by `str(params)`
when the method is POST and `params` is truthy (non-`None` and non-empty). -/
def signingBody (method : String) (params : Option (List (String × PyVal))) : String :=
  match params with
  | some d => if upperAscii method == "POST" && !d.isEmpty then pyStrDict d else ""
  | none => ""

/-- The body string actually transmitted for a POST
(src/api/bitget_client.py:163-164): `requests.post(url, json=params)` sends
`json.dumps(params)`. -/
def transmittedBody (params : List (String × PyVal)) : String := jsonDumps params

/-! ### Record validation and endpoint mapping (src/models/etl_models.py,
src/api/bitget_client.py:200-202 and 226-228)

Raw API records are association lists of field name to `PyVal`. Pydantic's
datetime fields are abstracted to (non-empty) strings and its float fields to
integers: only presence and well-formedness of fields matters to the claims. -/

/-- A raw entry of a response `data` array. -/
def RawRecord := List (String × PyVal)

/-- Require a string-valued field, as pydantic does for the `str`/`datetime`
fields of the bronze record models. -/
def requireStr (raw : RawRecord) (field : String) : Except PyErr String :=
  match List.lookup field raw with
  | some (.pystr s) => .ok s
  | _ => .error (.validationError field)

/-- Require a numeric field constrained to be non-negative, as pydantic does for
`Field(ge=0)` numeric fields. -/
def requireNonneg (raw : RawRecord) (field : String) : Except PyErr Int :=
  match List.lookup field raw with
  | some (.pyint n) => if 0 ≤ n then .ok n else .error (.validationError field)
  | _ => .error (.validationError field)

/-- Typed customer record (`CustomerRecord` of src/models/etl_models.py):
`BronzeRecord` provenance fields plus affiliate, client and registration time. -/
structure CustomerRecordT where
  source_file : String
  load_time : String
  load_status : String
  affiliate_id : String
  client_id : String
  register_time : String
  deriving Repr, DecidableEq

/-- Typed trade record (`TradeRecord` of src/models/etl_models.py). -/
structure TradeRecordT where
  source_file : String
  load_time : String
  load_status : String
  affiliate_id : String
  client_id : String
  trade_volume : Int
  trade_time : String
  deriving Repr, DecidableEq

/-- Validation of one raw record against `CustomerRecord` (pydantic): every
declared field must be present and well-typed, and `load_status` must match
`^(SUCCESS|ERROR|PARTIAL)$`. A failure is a `ValidationError` naming the field. -/
def parseCustomerRecord (raw : RawRecord) : Except PyErr CustomerRecordT := do
  let sf ← requireStr raw "source_file"
  let lt ← requireStr raw "load_time"
  let ls ← requireStr raw "load_status"
  if ls = "SUCCESS" || ls = "ERROR" || ls = "PARTIAL" then
    pure ()
  else
    throw (.validationError "load_status")
  let aff ← requireStr raw "affiliate_id"
  let cid ← requireStr raw "client_id"
  let rt ← requireStr raw "register_time"
  return ⟨sf, lt, ls, aff, cid, rt⟩

/-- Validation of one raw record against `TradeRecord` (pydantic), with the
non-negative `trade_volume` constraint. -/
def parseTradeRecord (raw : RawRecord) : Except PyErr TradeRecordT := do
  let sf ← requireStr raw "source_file"
  let lt ← requireStr raw "load_time"
  let ls ← requireStr raw "load_status"
  if ls = "SUCCESS" || ls = "ERROR" || ls = "PARTIAL" then
    pure ()
  else
    throw (.validationError "load_status")
  let aff ← requireStr raw "affiliate_id"
  let cid ← requireStr raw "client_id"
  let tv ← requireNonneg raw "trade_volume"
  let tt ← requireStr raw "trade_time"
  return ⟨sf, lt, ls, aff, cid, tv, tt⟩

/-- Semantics of a list comprehension `[f(entry) for entry in entries]` whose
body may raise: the entries are processed in order and the first exception
propagates out of the whole comprehension. -/
def validateAll {α β : Type} (p : α → Except PyErr β) :
    List α → Except PyErr (List β)
  | [] => .ok []
  | r :: rs =>
    match p r with
    | .error e => .error e
    | .ok x =>
      match validateAll p rs with
      | .error e => .error e
      | .ok xs => .ok (x :: xs)

/-- An entry of `response.data` as the client actually receives it: the
`APIResponse` model the client imports (src/models/bitget_models.py:68-73)
declares `data: Optional[List[BaseModel]]`, and validating a raw entry against
the field-less `BaseModel` discards every field (pydantic v1 ignores unknown
keys), leaving a field-less `BaseModel` instance. -/
inductive PyBaseModel where
  | fieldless
  deriving Repr, DecidableEq

/-- The `data` list of a parsed `APIResponse(**response.json())`: each raw
entry is coerced to a field-less `BaseModel`. -/
def apiResponseData (data : Option (List RawRecord)) : Option (List PyBaseModel) :=
  data.map (List.map fun _ => PyBaseModel.fieldless)

/-- Evaluation of `Model(**record)` when `record` is a `BaseModel` instance:
`**`-unpacking requires a mapping, which pydantic models are not, so CPython
raises `TypeError` before any field validation can begin. -/
def kwargsUnpack (entry : PyBaseModel) : Except PyErr RawRecord :=
  .error (.typeError "argument after ** must be a mapping, not BaseModel")

/-- Typed deposit record (`DepositRecord` of src/models/etl_models.py:51-58). -/
structure DepositRecordT where
  source_file : String
  load_time : String
  load_status : String
  affiliate_id : String
  client_id : String
  order_id : String
  deposit_time : String
  deposit_coin : String
  deposit_amount : Int
  deriving Repr, DecidableEq

/-- Typed asset record (`AssetRecord` of src/models/etl_models.py:60-66). -/
structure AssetRecordT where
  source_file : String
  load_time : String
  load_status : String
  affiliate_id : String
  client_id : String
  balance : Int
  update_time : String
  remark : Option String
  deriving Repr, DecidableEq

/-- Validation of one raw record against `DepositRecord`: every declared field
present and well-typed, `deposit_amount` non-negative. -/
def parseDepositRecord (raw : RawRecord) : Except PyErr DepositRecordT := do
  let sf ← requireStr raw "source_file"
  let lt ← requireStr raw "load_time"
  let ls ← requireStr raw "load_status"
  if ls = "SUCCESS" || ls = "ERROR" || ls = "PARTIAL" then
    pure ()
  else
    throw (.validationError "load_status")
  let aff ← requireStr raw "affiliate_id"
  let cid ← requireStr raw "client_id"
  let oid ← requireStr raw "order_id"
  let dt ← requireStr raw "deposit_time"
  let dc ← requireStr raw "deposit_coin"
  let da ← requireNonneg raw "deposit_amount"
  return ⟨sf, lt, ls, aff, cid, oid, dt, dc, da⟩

/-- Validation of one raw record against `AssetRecord`; `remark` is optional. -/
def parseAssetRecord (raw : RawRecord) : Except PyErr AssetRecordT := do
  let sf ← requireStr raw "source_file"
  let lt ← requireStr raw "load_time"
  let ls ← requireStr raw "load_status"
  if ls = "SUCCESS" || ls = "ERROR" || ls = "PARTIAL" then
    pure ()
  else
    throw (.validationError "load_status")
  let aff ← requireStr raw "affiliate_id"
  let cid ← requireStr raw "client_id"
  let bal ← requireNonneg raw "balance"
  let ut ← requireStr raw "update_time"
  let rem : Option String :=
    match List.lookup "remark" raw with
    | some (.pystr s) => some s
    | _ => none
  return ⟨sf, lt, ls, aff, cid, bal, ut, rem⟩

/-- One step of the comprehension `[Model(**record) for record in
response.data]`: unpack the entry — which raises `TypeError`, see
`kwargsUnpack` — and only then would pydantic validate the fields. -/
def constructModel {β : Type} (parse : RawRecord → Except PyErr β)
    (entry : PyBaseModel) : Except PyErr β :=
  match kwargsUnpack entry with
  | .error e => .error e
  | .ok raw => parse raw

/-- Response mapping of `BitgetClient.get_customer_list`
(src/api/bitget_client.py:200-202): `if response.data:` (both `None` and the
empty list are falsy) then the comprehension over the coerced entries, else the
empty list. -/
def get_customer_list_records (data : Option (List RawRecord)) :
    Except PyErr (List CustomerRecordT) :=
  match apiResponseData data with
  | some [] => .ok []
  | some entries => validateAll (constructModel parseCustomerRecord) entries
  | none => .ok []

/-- Response mapping of `BitgetClient.get_trade_activities`
(src/api/bitget_client.py:226-228), identical in structure. -/
def get_trade_activities_records (data : Option (List RawRecord)) :
    Except PyErr (List TradeRecordT) :=
  match apiResponseData data with
  | some [] => .ok []
  | some entries => validateAll (constructModel parseTradeRecord) entries
  | none => .ok []

/-- Response mapping of `BitgetClient.get_deposits`
(src/api/bitget_client.py:256-258). -/
def get_deposits_records (data : Option (List RawRecord)) :
    Except PyErr (List DepositRecordT) :=
  match apiResponseData data with
  | some [] => .ok []
  | some entries => validateAll (constructModel parseDepositRecord) entries
  | none => .ok []

/-- Response mapping of `BitgetClient.get_assets`
(src/api/bitget_client.py:282-284). -/
def get_assets_records (data : Option (List RawRecord)) :
    Except PyErr (List AssetRecordT) :=
  match apiResponseData data with
  | some [] => .ok []
  | some entries => validateAll (constructModel parseAssetRecord) entries
  | none => .ok []

/-! ### Checkpoint store (src/etl/bitget_etl.py:33-46) -/

/-- Embedding of `BitgetETL._load_last_timestamp`: the stored checkpoint for
`(affiliate_id, endpoint)` when its file exists, otherwise ten minutes before
now, in epoch milliseconds. -/
def load_last_timestamp (stored : Option Int) (nowMs : Int) : Int :=
  match stored with
  | some ts => ts
  | none => nowMs - 600000

/-! ### Configuration attribute reads (src/etl/bitget_etl.py:121, 183, 187, 252, 256, 318) -/

/-- Resolution of `page_size or self.etl_config.max_page_size or 1000`:
Python `or` short-circuits, so a truthy (non-`None`, non-zero) `page_size` is
used as given; otherwise the attribute read `self.etl_config.max_page_size`
raises `AttributeError`, because `ETLConfig` (src/models/etl_models.py:5-9)
declares only `batch_size`, `max_retries` and `retry_delay`. -/
def effectivePageSize (page_size : Option Nat) : Except PyErr Nat :=
  match page_size with
  | some n => if n = 0 then .error (.attributeError "max_page_size") else .ok n
  | none => .error (.attributeError "max_page_size")

/-- Resolution of `end_time or (start_ts + int(self.time_window.total_seconds()
* 1000))` (src/etl/bitget_etl.py:187 and 256): a truthy `end_time` is used as
given; otherwise the attribute read `self.time_window` raises
`AttributeError`, because `BitgetETL.__init__` (src/etl/bitget_etl.py:21-31)
never assigns a `time_window` attribute. -/
def resolveEndTs (end_time : Option Int) : Except PyErr Int :=
  match end_time with
  | some v => if v = 0 then .error (.attributeError "time_window") else .ok v
  | none => .error (.attributeError "time_window")

/-! ### Bronze sink, `BitgetETL._save_to_bronze` (src/etl/bitget_etl.py:66-102) -/

/-- Evaluation of a Python identifier that is bound in no enclosing scope:
CPython raises `NameError`. Inside `_save_to_bronze` the names `start_time`,
`end_time` (in the metadata dict literal) and `batch` (in the filename
f-string) have no binding — they are not parameters, not locals, not globals of
the module. -/
def unboundName (ident : String) : Except PyErr String :=
  .error (.nameError ident)

/-- A customer-list record as consumed by the extractor: the only field the
extractor reads is the record identifier `rec["uid"]`. -/
structure CRec where
  uid : Nat
  deriving Repr, DecidableEq

/-- The file that `_save_to_bronze` would write: its partition path and the
envelope contents. -/
structure BronzeFile where
  path : String
  records : List CRec
  affiliate_id : String
  endpoint : String
  record_timestamp : String
  records_fetched : Nat
  pages_fetched : Nat
  deriving Repr, DecidableEq

/-- Embedding of `BitgetETL._save_to_bronze`. `datePath` is
`self.timestamp.strftime("%Y/%m/%d")` and `basePath` is `self.base_path`.
The body builds `save_path`, then evaluates the `data` dict literal whose
metadata entries `"start_time": start_time` and `"end_time": end_time` read
identifiers with no binding in scope, and the filename f-string
`f"batch_\x7bbatch\x7d.json"` reads the unbound `batch`; the first such read
raises `NameError` before any file is written. -/
def save_to_bronze (basePath datePath : String) (records : List CRec)
    (endpoint affiliate_id : String) (page : Nat) (timestampIso : String) :
    Except PyErr BronzeFile := do
  let savePath := basePath ++ "/" ++ affiliate_id ++ "/" ++ endpoint ++ "/" ++ datePath
  let st ← unboundName "start_time"
  let et ← unboundName "end_time"
  let b ← unboundName "batch"
  let _ := st
  let _ := et
  return { path := savePath ++ "/batch_" ++ b ++ ".json"
           records := records
           affiliate_id := affiliate_id
           endpoint := endpoint
           record_timestamp := timestampIso
           records_fetched := records.length
           pages_fetched := page }

/-! ### Customer-list extraction, `BitgetETL.extract_customer_list`
(src/etl/bitget_etl.py:104-162) -/

/-- Python `set.update` on the seen-identifier set, with the set represented as
a duplicate-free insertion-ordered list: each identifier is appended unless
already present. -/
def seenUpdate (seen : List Nat) (uids : List Nat) : List Nat :=
  uids.foldl (fun s u => if s.contains u then s else s ++ [u]) seen

/-- Evaluation of the subscription `rec["uid"]` in the dedup comprehension
(src/etl/bitget_etl.py:140) and in the seen-set update generator (line 155):
`records` holds pydantic `CustomerRecord` objects
(src/models/etl_models.py:38-42), which define no `__getitem__` and no `uid`
field, so CPython raises `TypeError`. -/
def uidSubscript (r : CRec) : Except PyErr Nat :=
  .error (.typeError "'CustomerRecord' object is not subscriptable")

/-- The dedup comprehension `[rec for rec in records if rec["uid"] not in
seen_uids]` (src/etl/bitget_etl.py:138-141): each record is subscripted in
turn — here the first subscription already raises — keeping the records whose
identifier is not in the seen set. -/
def dedupFilter (seen : List Nat) : List CRec → Except PyErr (List CRec)
  | [] => .ok []
  | r :: rs =>
    match uidSubscript r with
    | .error e => .error e
    | .ok u =>
      match dedupFilter seen rs with
      | .error e => .error e
      | .ok kept => .ok (if seen.contains u then kept else r :: kept)

/-- The generator `(rec["uid"] for rec in new_records)` consumed by
`seen_uids.update(...)` (src/etl/bitget_etl.py:155) — again a subscription on
each record. -/
def uidsOf : List CRec → Except PyErr (List Nat)
  | [] => .ok []
  | r :: rs =>
    match uidSubscript r with
    | .error e => .error e
    | .ok u =>
      match uidsOf rs with
      | .error e => .error e
      | .ok us => .ok (u :: us)

/-- Result of the customer-list pagination loop: pages requested in order,
successful bronze saves as `(page, new_records)` pairs, the final value of
`seen_uids`, and the exception (if any) that aborted the loop — in
`extract_customer_list` there is no inner `try`, so such an exception
propagates to the outer handler, which logs and re-raises. -/
structure CLLoopRes where
  requested : List Nat
  writes : List (Nat × List CRec)
  seen : List Nat
  raised : Option PyErr
  deriving Repr, DecidableEq

/-- The polling-mode loop body of `extract_customer_list`
(src/etl/bitget_etl.py:125-155) over `pages_to_fetch = range(1, 999999)`:
`iters` counts the remaining pages of that range. Each iteration requests the
page, breaks on an empty page, then evaluates the dedup comprehension — whose
`rec["uid"]` subscription raises `TypeError` on the first record of any
non-empty page (`dedupFilter`); there is no inner `try`, so the exception ends
the loop and propagates. The remaining branches embed the written text: break
on nothing new, save to bronze, break on a short raw page, otherwise update
the seen set (another raising subscription, `uidsOf`) and continue. -/
def clLoop (fetch : Nat → Except PyErr (List CRec))
    (sink : List CRec → Nat → Except PyErr Unit) (eps : Nat) :
    Nat → Nat → List Nat → CLLoopRes
  | _, 0, seen => ⟨[], [], seen, none⟩
  | page, iters + 1, seen =>
    match fetch page with
    | .error e => ⟨[page], [], seen, some e⟩
    | .ok records =>
      if records.isEmpty then ⟨[page], [], seen, none⟩
      else
        match dedupFilter seen records with
        | .error e => ⟨[page], [], seen, some e⟩
        | .ok newRecords =>
          if newRecords.isEmpty then ⟨[page], [], seen, none⟩
          else
            match sink newRecords page with
            | .error e => ⟨[page], [], seen, some e⟩
            | .ok _ =>
              if records.length < eps then ⟨[page], [(page, newRecords)], seen, none⟩
              else
                match uidsOf newRecords with
                | .error e => ⟨[page], [(page, newRecords)], seen, some e⟩
                | .ok us =>
                  let rest := clLoop fetch sink eps (page + 1) iters (seenUpdate seen us)
                  ⟨page :: rest.requested, (page, newRecords) :: rest.writes,
                   rest.seen, rest.raised⟩

/-- Result of a whole `extract_customer_list` call: pages requested, bronze
saves performed, the seen-set store effect (`some s` exactly when
`_store_seen_uids` ran, writing `s`), and the exception re-raised by the outer
handler, if any. -/
structure CLRes where
  requested : List Nat
  writes : List (Nat × List CRec)
  seenStore : Option (List Nat)
  raised : Option PyErr
  deriving Repr, DecidableEq

/-- Embedding of `BitgetETL.extract_customer_list`
(src/etl/bitget_etl.py:104-162). `seen0` is the seen set loaded by
`_load_seen_uids`. The page-size resolution at line 121 runs first and raises
`AttributeError` for a falsy `page_size` (undefined
`etl_config.max_page_size`); the outer handler re-raises it. With
`page_no = some p` (direct page fetch mode) the single page is fetched and
saved without the dedup filter, and the seen set is neither updated nor
stored; with `page_no = none` (polling mode) the loop runs over
`range(1, 999999)` and `_store_seen_uids` persists the updated set only when
the loop completes without an exception. -/
def extract_customer_list (fetch : Nat → Except PyErr (List CRec))
    (sink : List CRec → Nat → Except PyErr Unit) (seen0 : List Nat)
    (page_size page_no : Option Nat) : CLRes :=
  match effectivePageSize page_size with
  | .error e => ⟨[], [], none, some e⟩
  | .ok eps =>
    match page_no with
    | some p =>
      match fetch p with
      | .error e => ⟨[p], [], none, some e⟩
      | .ok records =>
        if records.isEmpty then ⟨[p], [], none, none⟩
        else
          match sink records p with
          | .error e => ⟨[p], [], none, some e⟩
          | .ok _ => ⟨[p], [(p, records)], none, none⟩
    | none =>
      let r := clLoop fetch sink eps 1 999998 seen0
      match r.raised with
      | some e => ⟨r.requested, r.writes, none, some e⟩
      | none => ⟨r.requested, r.writes, some r.seen, none⟩

/-! ### Time-windowed extraction, `BitgetETL.extract_trade_activities` and
`BitgetETL.extract_deposits` (src/etl/bitget_etl.py:164-299) -/

/-- Result of the `while has_more` pagination loop shared by the trade and
deposit extractors: pages requested, successful bronze saves, and the
exception (if any) caught by the inner `except`, which logs it and sets
`has_more = False` — the loop ends but the enclosing function continues
normally. -/
structure WinLoopRes (α : Type) where
  requested : List Nat
  writes : List (Nat × List α)
  pageFailure : Option PyErr
  deriving Repr, DecidableEq

/-- The `while has_more` loop body (src/etl/bitget_etl.py:197-221 and 266-291,
which are line-for-line the same behaviour): request the current page inside a
`try`; an exception ends the loop with the failure recorded (and swallowed);
an empty page breaks; otherwise the batch is saved to bronze, a short page
ends the loop, and a full page advances to the next page. `fuel` bounds the
number of iterations the embedding unfolds. -/
def winLoop {α : Type} (fetch : Nat → Except PyErr (List α))
    (sink : List α → Nat → Except PyErr Unit) (eps : Nat) :
    Nat → Nat → WinLoopRes α
  | _, 0 => ⟨[], [], none⟩
  | page, fuel + 1 =>
    match fetch page with
    | .error e => ⟨[page], [], some e⟩
    | .ok records =>
      if records.isEmpty then ⟨[page], [], none⟩
      else
        match sink records page with
        | .error e => ⟨[page], [], some e⟩
        | .ok _ =>
          if records.length < eps then ⟨[page], [(page, records)], none⟩
          else
            let rest := winLoop fetch sink eps (page + 1) fuel
            ⟨page :: rest.requested, (page, records) :: rest.writes, rest.pageFailure⟩

/-- Result of a whole windowed extraction call: the loop outcome plus the
checkpoint store effect — `cpWrite = some ts` exactly when
`_save_last_timestamp` ran, writing `ts`. -/
structure WinRes (α : Type) where
  requested : List Nat
  writes : List (Nat × List α)
  pageFailure : Option PyErr
  cpWrite : Option Int
  deriving Repr, DecidableEq

/-- Embedding of `BitgetETL.extract_trade_activities`
(src/etl/bitget_etl.py:164-229). `stored` is the checkpoint read by
`_load_last_timestamp` and `nowMs` models `datetime.utcnow()`; the window
bounds passed to the client are absorbed into the `fetch` oracle. The
page-size resolution (line 183) and the end-time resolution (line 187) can
raise `AttributeError` — undefined `etl_config.max_page_size` and undefined
`self.time_window` — and such an exception is caught by the outer handler,
logged and re-raised, so the pagination loop and the checkpoint save at lines
224-225 are never reached. When both resolutions succeed the loop runs and
afterwards `_save_last_timestamp` stores `end_ts` whenever `start_time is None
and end_time is None` — mirroring line 224 as written. -/
def extract_trade_activities {α : Type} (fetch : Nat → Except PyErr (List α))
    (sink : List α → Nat → Except PyErr Unit) (stored : Option Int) (nowMs : Int)
    (page_size : Option Nat) (start_time end_time : Option Int) (fuel : Nat) :
    Except PyErr (WinRes α) :=
  match effectivePageSize page_size with
  | .error e => .error e
  | .ok eps =>
    let start_ts := pyOrInt start_time (load_last_timestamp stored nowMs)
    match resolveEndTs end_time with
    | .error e => .error e
    | .ok end_ts =>
      let _ := start_ts
      let r := winLoop fetch sink eps 1 fuel
      .ok ⟨r.requested, r.writes, r.pageFailure,
        if start_time.isNone && end_time.isNone then some end_ts else none⟩

/-- Embedding of `BitgetETL.extract_deposits` (src/etl/bitget_etl.py:231-299),
whose body is behaviourally identical to the trade extractor — including the
raising page-size and end-time resolutions at lines 252 and 256; it
additionally accepts a `page_no` parameter (documented as a debug page
selector) that its body never reads. -/
def extract_deposits {α : Type} (fetch : Nat → Except PyErr (List α))
    (sink : List α → Nat → Except PyErr Unit) (stored : Option Int) (nowMs : Int)
    (page_size page_no : Option Nat) (start_time end_time : Option Int)
    (fuel : Nat) : Except PyErr (WinRes α) :=
  match effectivePageSize page_size with
  | .error e => .error e
  | .ok eps =>
    let start_ts := pyOrInt start_time (load_last_timestamp stored nowMs)
    match resolveEndTs end_time with
    | .error e => .error e
    | .ok end_ts =>
      let _ := start_ts
      let r := winLoop fetch sink eps 1 fuel
      .ok ⟨r.requested, r.writes, r.pageFailure,
        if start_time.isNone && end_time.isNone then some end_ts else none⟩

/-- Result of `extract_assets`: its loop has no inner `try`, so an exception
from the page-size resolution, a page request or a save propagates out of the
function (`raised`). -/
structure AssetsRes (α : Type) where
  requested : List Nat
  writes : List (Nat × List α)
  raised : Option PyErr
  deriving Repr, DecidableEq

/-- Embedding of the body of `extract_assets` as written
(src/etl/bitget_etl.py:301-347): the page-size resolution (line 318, which can
raise `AttributeError`), then a `while True` pagination loop from page 1 —
empty page breaks, batch saved, short page breaks, full page advances — with
no time window and no checkpoint; the loop body coincides with `winLoop`, and
with no inner `try` a recorded page failure propagates. Its `page_no`
parameter is never read. The `def` header itself is mis-indented in the
source, which prevents the module from importing at all — see
`bitget_etl_module_import`. -/
def extract_assets {α : Type} (fetch : Nat → Except PyErr (List α))
    (sink : List α → Nat → Except PyErr Unit) (page_size page_no : Option Nat)
    (fuel : Nat) : AssetsRes α :=
  match effectivePageSize page_size with
  | .error e => ⟨[], [], some e⟩
  | .ok eps =>
    let r := winLoop fetch sink eps 1 fuel
    ⟨r.requested, r.writes, r.pageFailure⟩

/-- The checkpoint-store effect of a windowed extraction outcome: the
timestamp written by `_save_last_timestamp`, or `none` when the run raised
before the save or the save condition was false. -/
def cpWriteOf {α : Type} : Except PyErr (WinRes α) → Option Int
  | .ok r => r.cpWrite
  | .error _ => none

/-- Importing `src/etl/bitget_etl.py`: the `def extract_assets` header at line
301 is indented three spaces inside the four-space class body, so compiling
the module raises `IndentationError` at import time — the `BitgetETL` class
and all its methods never come into existence at runtime. -/
def bitget_etl_module_import : Except PyErr Unit :=
  .error (.indentationError "unindent does not match any outer indentation level")

/-! ### Concrete scenario inputs used by the theorems -/

/-- A bronze sink that always succeeds — exactly how the repository's tests
stub `BitgetETL._save_to_bronze` (tests/test_etl/test_bitget_etl.py patches it
with a mock). -/
def okSink {α : Type} : List α → Nat → Except PyErr Unit := fun _ _ => .ok ()

/-- The bronze sink as actually implemented: a call into `save_to_bronze`
for the customer-list endpoint of affiliate `aff1` on a fixed run date. -/
def bronzeSink : List CRec → Nat → Except PyErr Unit := fun recs page =>
  (save_to_bronze "data/bronze" "2026/02/03" recs "customer_list" "aff1" page
      "2026-02-03T00:00:00").map fun _ => ()

/-- Page oracle for the checkpoint-failure scenario of spec section 8: page 1
returns a full page (of two records with page size two) and every later page
request raises an `APIRequestError`. -/
def failAfterPage1 : Nat → Except PyErr (List Unit)
  | 1 => .ok [(), ()]
  | _ => .error (.apiRequestError "HTTP 500")

/-- A customer-list page of `count` records with identifiers
`offset, offset+1, …, offset+count-1`. -/
def c7page (offset count : Nat) : List CRec :=
  (List.range count).map fun i => ⟨offset + i⟩

/-- Page oracle for the customer-list scenario of spec section 8: page 1 has
1000 all-new records, page 2 has 1000 all-new records, page 3 has 200 all-new
records, and later pages are empty. -/
def c7fetch : Nat → Except PyErr (List CRec)
  | 1 => .ok (c7page 0 1000)
  | 2 => .ok (c7page 1000 1000)
  | 3 => .ok (c7page 2000 200)
  | _ => .ok []

/-- The customer-list scenario run: empty initial seen set, page size 1000,
polling mode, with the sink stubbed to succeed as in the repository's tests. -/
def c7run : CLRes := extract_customer_list c7fetch okSink [] (some 1000) none

/-- Parameter dict of `get_customer_list` (src/api/bitget_client.py:190-195)
with defaulted times: the concrete POST parameters of the serialization claim. -/
def customerListParams : List (String × PyVal) :=
  [("pageNo", .pystr "1"), ("pageSize", .pystr "10"),
   ("startTime", .pynone), ("endTime", .pynone)]

/-- A raw customer record carrying every field `CustomerRecord` requires. -/
def rawGoodCustomer : RawRecord :=
  [("source_file", .pystr "f.json"), ("load_time", .pystr "2024-01-01T00:00:00"),
   ("load_status", .pystr "SUCCESS"), ("affiliate_id", .pystr "aff1"),
   ("client_id", .pystr "c1"), ("register_time", .pystr "2024-01-01T00:00:00")]

/-- The typed record that `rawGoodCustomer` validates to. -/
def goodCustomer : CustomerRecordT :=
  ⟨"f.json", "2024-01-01T00:00:00", "SUCCESS", "aff1", "c1", "2024-01-01T00:00:00"⟩

/-- Page oracle whose every page consists of the single record with
identifier 7. -/
def c6fetch : Nat → Except PyErr (List CRec) := fun _ => .ok [⟨7⟩]

/-- Known-answer check validating the SHA-256 embedding:
`sha256("abc") = ba7816bf…15ad`. -/
theorem sha256_abc_kat :
    sha256 (utf8 "abc") =
      [186, 120, 22, 191, 143, 1, 207, 234, 65, 65, 64, 222, 93, 174, 34, 35,
       176, 3, 97, 163, 150, 23, 122, 156, 180, 16, 255, 97, 242, 0, 21, 173] := by
  decide


/-! ### Helper lemmas -/

/-- Length of a generated customer page. -/
theorem c7page_length (offset count : Nat) : (c7page offset count).length = count := by
  simp [c7page]

/-- Helper: `effectivePageSize` on an explicit positive page size. -/
theorem effectivePageSize_pos (n : Nat) :
    effectivePageSize (some (n + 1)) = .ok (n + 1) := by
  simp [effectivePageSize]

/-- Helper: one polling iteration on a non-empty page raises `TypeError` at
the dedup comprehension before anything is written or tested. -/
theorem clLoop_nonempty_page_raises (fetch : Nat → Except PyErr (List CRec))
    (sink : List CRec → Nat → Except PyErr Unit) (eps page iters : Nat)
    (seen : List Nat) (recs : List CRec) (hf : fetch page = .ok recs)
    (hne : recs ≠ []) :
    clLoop fetch sink eps page (iters + 1) seen =
      ⟨[page], [], seen,
       some (.typeError "'CustomerRecord' object is not subscriptable")⟩ := by
  show (match fetch page with
        | .error e => (⟨[page], [], seen, some e⟩ : CLLoopRes)
        | .ok records =>
          if records.isEmpty then ⟨[page], [], seen, none⟩
          else
            match dedupFilter seen records with
            | .error e => ⟨[page], [], seen, some e⟩
            | .ok newRecords =>
              if newRecords.isEmpty then ⟨[page], [], seen, none⟩
              else
                match sink newRecords page with
                | .error e => ⟨[page], [], seen, some e⟩
                | .ok _ =>
                  if records.length < eps then ⟨[page], [(page, newRecords)], seen, none⟩
                  else
                    match uidsOf newRecords with
                    | .error e => ⟨[page], [(page, newRecords)], seen, some e⟩
                    | .ok us =>
                      let rest := clLoop fetch sink eps (page + 1) iters (seenUpdate seen us)
                      ⟨page :: rest.requested, (page, newRecords) :: rest.writes,
                       rest.seen, rest.raised⟩) = _
  rw [hf]
  cases recs with
  | nil => exact absurd rfl hne
  | cons r rs => rfl

/-- Helper: the polling branch of `extract_customer_list`, expressed through
the resolved page size and the loop outcome — the seen-set store runs exactly
when the loop raised nothing. -/
theorem extract_customer_list_polling (fetch : Nat → Except PyErr (List CRec))
    (sink : List CRec → Nat → Except PyErr Unit) (seen0 : List Nat)
    (ps : Option Nat) (eps : Nat) (req : List Nat) (wr : List (Nat × List CRec))
    (fin : List Nat) (er : Option PyErr)
    (hps : effectivePageSize ps = .ok eps)
    (h : clLoop fetch sink eps 1 999998 seen0 = ⟨req, wr, fin, er⟩) :
    extract_customer_list fetch sink seen0 ps none =
      ⟨req, wr, er.elim (some fin) (fun _ => none), er⟩ := by
  simp only [extract_customer_list, hps]
  rw [h]
  cases er <;> rfl

/-! ### Claim theorems -/

/-- C3: the request-signing function is deterministic — for every fixed
`(api_secret, timestamp, method, request_path, body)` it returns
`Base64(HMAC-SHA256(api_secret, timestamp ++ UPPERCASE(method) ++ request_path
++ body))`, where the body component is empty unless the method is POST and a
non-empty body is present; on two fixed inputs it matches precomputed
reference values of that algorithm. -/
theorem sign_request_spec :
    (∀ api_secret timestamp method request_path body : String,
      sign_request api_secret timestamp method request_path body =
        base64Encode (hmacSha256 (utf8 api_secret)
          (utf8 (timestamp ++ upperAscii method ++ request_path ++
            (if upperAscii method = "POST" ∧ body ≠ "" then body else ""))))) ∧
    sign_request "test_secret" "1700000000000" "post" "/api/broker/v1/agent/customerList" "" =
      "xocVZMHfKW+XUoIqCwRw9dvh2iN6ocNrwoD6IpRgFGo=" ∧
    sign_request "test_secret" "1700000000000" "POST" "/x" "\x7b'pageNo': '1'\x7d" =
      "pRsAffjZ6XYflzM6M+5v4y2t2QDZhaKtnukNkTinN6U=" := by
  refine ⟨fun api_secret timestamp method request_path body => ?_, by decide, by decide⟩
  unfold sign_request
  by_cases hb : body = "" <;> by_cases hm : upperAscii method = "POST" <;>
    simp [hb, hm]

/-- C4 counterexample evaluation: for the customer-list POST parameters, the
body string fed to the signature (`str(params)`, Python repr with single
quotes) differs from the body transmitted by `requests.post(url, json=params)`
(`json.dumps(params)` with double quotes and `null`). -/
theorem post_body_serialization_mismatch :
    signingBody "POST" (some customerListParams) =
      "\x7b'pageNo': '1', 'pageSize': '10', 'startTime': None, 'endTime': None\x7d" ∧
    transmittedBody customerListParams =
      "\x7b\"pageNo\": \"1\", \"pageSize\": \"10\", \"startTime\": null, \"endTime\": null\x7d" ∧
    signingBody "POST" (some customerListParams) ≠ transmittedBody customerListParams := by
  refine ⟨by decide, by decide, by decide⟩

/-- C8 evaluation at the failing input: `_save_to_bronze` reads the undefined
names `start_time`, `end_time` and `batch`, so every call — in particular a
non-empty customer-list batch — raises `NameError` and writes no file. -/
theorem save_to_bronze_name_error :
    save_to_bronze "data/bronze" "2026/02/03" [⟨1⟩] "customer_list" "aff1" 1
        "2026-02-03T00:00:00" = .error (.nameError "start_time") ∧
    (∀ basePath datePath records endpoint affiliate_id page timestampIso,
      save_to_bronze basePath datePath records endpoint affiliate_id page timestampIso =
        .error (.nameError "start_time")) :=
  ⟨rfl, fun _ _ _ _ _ _ _ => rfl⟩

/-- C1 evaluation: both windowed extractors, run with defaulted
`start_time`/`end_time` (the claim's scenario: stored checkpoint present,
page 1 full, page 2 failing), raise `AttributeError` reading the undefined
`self.time_window` while resolving `end_ts` — before any page request — so
the pagination loop the claim speaks of is never entered and the checkpoint
file is never touched; the last two conjuncts show this for every
defaulted-`end_time` run with a truthy page size. -/
theorem defaulted_window_run_crashes_before_loop :
    extract_trade_activities failAfterPage1 okSink (some 1000) 0 (some 2) none
        none 9 = .error (.attributeError "time_window") ∧
    extract_deposits failAfterPage1 okSink (some 1000) 0 (some 2) none none
        none 9 = .error (.attributeError "time_window") ∧
    (∀ (α : Type) (fetch : Nat → Except PyErr (List α))
        (sink : List α → Nat → Except PyErr Unit) (stored : Option Int)
        (nowMs : Int) (n : Nat) (start_time : Option Int) (fuel : Nat),
      extract_trade_activities fetch sink stored nowMs (some (n + 1)) start_time
        none fuel = .error (.attributeError "time_window")) ∧
    (∀ (α : Type) (fetch : Nat → Except PyErr (List α))
        (sink : List α → Nat → Except PyErr Unit) (stored : Option Int)
        (nowMs : Int) (n : Nat) (page_no : Option Nat) (start_time : Option Int)
        (fuel : Nat),
      extract_deposits fetch sink stored nowMs (some (n + 1)) page_no start_time
        none fuel = .error (.attributeError "time_window")) := by
  refine ⟨rfl, rfl, ?_, ?_⟩
  · intro α fetch sink stored nowMs n st fuel
    simp [extract_trade_activities, effectivePageSize, resolveEndTs]
  · intro α fetch sink stored nowMs n pn st fuel
    simp [extract_deposits, effectivePageSize, resolveEndTs]

/-- C2 evaluation: no checkpoint is ever written. A run with both times
defaulted raises `AttributeError` at `self.time_window` before the loop (last
conjunct), and a run that survives end-time resolution necessarily had an
explicit `end_time`, making the save condition `start_time is None and
end_time is None` false — so for every input the checkpoint-store effect of
both extractors is `none`. -/
theorem checkpoint_never_written :
    (∀ (α : Type) (fetch : Nat → Except PyErr (List α))
        (sink : List α → Nat → Except PyErr Unit) (stored : Option Int)
        (nowMs : Int) (page_size : Option Nat) (start_time end_time : Option Int)
        (fuel : Nat),
      cpWriteOf (extract_trade_activities fetch sink stored nowMs page_size
        start_time end_time fuel) = none) ∧
    (∀ (α : Type) (fetch : Nat → Except PyErr (List α))
        (sink : List α → Nat → Except PyErr Unit) (stored : Option Int)
        (nowMs : Int) (page_size page_no : Option Nat)
        (start_time end_time : Option Int) (fuel : Nat),
      cpWriteOf (extract_deposits fetch sink stored nowMs page_size page_no
        start_time end_time fuel) = none) ∧
    extract_trade_activities (fun _ => .ok ([] : List Unit)) okSink (some 500) 0
        (some 1000) none none 3 = .error (.attributeError "time_window") := by
  refine ⟨?_, ?_, rfl⟩
  · intro α fetch sink stored nowMs ps st et fuel
    cases hps : effectivePageSize ps with
    | error e => simp [extract_trade_activities, hps, cpWriteOf]
    | ok eps =>
      cases et with
      | none => simp [extract_trade_activities, hps, resolveEndTs, cpWriteOf]
      | some v =>
        by_cases hv : v = 0
        · simp [extract_trade_activities, hps, resolveEndTs, hv, cpWriteOf]
        · simp [extract_trade_activities, hps, resolveEndTs, hv, cpWriteOf]
  · intro α fetch sink stored nowMs ps pn st et fuel
    cases hps : effectivePageSize ps with
    | error e => simp [extract_deposits, hps, cpWriteOf]
    | ok eps =>
      cases et with
      | none => simp [extract_deposits, hps, resolveEndTs, cpWriteOf]
      | some v =>
        by_cases hv : v = 0
        · simp [extract_deposits, hps, resolveEndTs, hv, cpWriteOf]
        · simp [extract_deposits, hps, resolveEndTs, hv, cpWriteOf]

/-- C5 evaluation: for every endpoint method, a response whose `data` holds at
least one entry fails wholesale with `TypeError` — `APIResponse` has already
coerced each entry to a field-less `BaseModel` and `Model(**record)` cannot
unpack a non-mapping — so no record is validated, discarded or returned (the
repository's own client tests, which assert typed records come back, fail
here); empty or absent `data` yields the empty list, and the sample raw entry
itself is one `CustomerRecord` accepts, showing the failure is not the entry's
invalidity. -/
theorem response_mapping_raises_type_error :
    (∀ (entry : RawRecord) (rest : List RawRecord),
      get_customer_list_records (some (entry :: rest)) =
        .error (.typeError "argument after ** must be a mapping, not BaseModel")) ∧
    (∀ (entry : RawRecord) (rest : List RawRecord),
      get_trade_activities_records (some (entry :: rest)) =
        .error (.typeError "argument after ** must be a mapping, not BaseModel")) ∧
    (∀ (entry : RawRecord) (rest : List RawRecord),
      get_deposits_records (some (entry :: rest)) =
        .error (.typeError "argument after ** must be a mapping, not BaseModel")) ∧
    (∀ (entry : RawRecord) (rest : List RawRecord),
      get_assets_records (some (entry :: rest)) =
        .error (.typeError "argument after ** must be a mapping, not BaseModel")) ∧
    get_customer_list_records none = .ok [] ∧
    get_customer_list_records (some []) = .ok [] ∧
    parseCustomerRecord rawGoodCustomer = .ok goodCustomer :=
  ⟨fun _ _ => rfl, fun _ _ => rfl, fun _ _ => rfl, fun _ _ => rfl, rfl, rfl, rfl⟩

/-- C6 evaluation: in polling mode the dedup comprehension subscripts
`rec["uid"]` on pydantic records that support no such access, so the claim's
clean "all-seen page, no write, stop" path cannot execute: with seen set `[7]`
loaded and a single-record page (the claim's all-seen page), extraction
requests page 1 and raises `TypeError` before any membership test — nothing is
written, but the loop ends by exception and the seen set is never re-stored;
the general conjunct shows the same for every non-empty first page, seen set,
truthy page size and sink. -/
theorem polling_dedup_type_error :
    extract_customer_list c6fetch okSink [7] (some 1000) none =
      ⟨[1], [], none,
       some (.typeError "'CustomerRecord' object is not subscriptable")⟩ ∧
    (∀ (r : CRec) (rs : List CRec) (seen0 : List Nat) (n : Nat)
        (sink : List CRec → Nat → Except PyErr Unit),
      extract_customer_list (fun _ => .ok (r :: rs)) sink seen0 (some (n + 1))
          none =
        ⟨[1], [], none,
         some (.typeError "'CustomerRecord' object is not subscriptable")⟩) := by
  constructor
  · rfl
  · intro r rs seen0 n sink
    have hl := clLoop_nonempty_page_raises (fun _ => .ok (r :: rs)) sink (n + 1) 1
      999997 seen0 (r :: rs) rfl (List.cons_ne_nil r rs)
    have h99 : (999997 : Nat) + 1 = 999998 := by norm_num
    rw [h99] at hl
    exact extract_customer_list_polling (fun _ => .ok (r :: rs)) sink seen0
      (some (n + 1)) (n + 1) _ _ _ _ (effectivePageSize_pos n) hl

/-- C7 evaluation of the three-page scenario: the run never gets to write 2200
records in 3 batches or grow the seen set — page 1's 1000 records reach the
dedup comprehension, whose first `rec["uid"]` subscription raises `TypeError`;
extraction aborts with only page 1 requested, zero writes and no seen-set
store, for the stubbed sink and the real bronze sink alike. -/
theorem customer_scenario_crashes_at_dedup :
    c7run = ⟨[1], [], none,
      some (.typeError "'CustomerRecord' object is not subscriptable")⟩ ∧
    extract_customer_list c7fetch bronzeSink [] (some 1000) none =
      ⟨[1], [], none,
       some (.typeError "'CustomerRecord' object is not subscriptable")⟩ := by
  have hne1 : c7page 0 1000 ≠ [] := by
    intro h
    have hc := c7page_length 0 1000
    rw [h] at hc
    simp at hc
  constructor
  · show extract_customer_list c7fetch okSink [] (some 1000) none = _
    have hl := clLoop_nonempty_page_raises c7fetch okSink 1000 1 999997 []
      (c7page 0 1000) rfl hne1
    have h99 : (999997 : Nat) + 1 = 999998 := by norm_num
    rw [h99] at hl
    exact extract_customer_list_polling c7fetch okSink [] (some 1000) 1000
      _ _ _ _ rfl hl
  · have hl := clLoop_nonempty_page_raises c7fetch bronzeSink 1000 1 999997 []
      (c7page 0 1000) rfl hne1
    have h99 : (999997 : Nat) + 1 = 999998 := by norm_num
    rw [h99] at hl
    exact extract_customer_list_polling c7fetch bronzeSink [] (some 1000) 1000
      _ _ _ _ rfl hl

/-- C9: in the written bodies the `page_no` parameter is genuinely dead — both
extractors give identical results, requests and writes for every pair of
`page_no` values (first two conjuncts) — but the operations themselves are
unreachable: importing the module raises `IndentationError` at the mis-indented
`def extract_assets`, and a run letting the page size default raises
`AttributeError` at the undefined `etl_config.max_page_size` before any
request (last conjunct). -/
theorem page_no_dead_but_functions_unreachable :
    (∀ (α : Type) (fetch : Nat → Except PyErr (List α))
        (sink : List α → Nat → Except PyErr Unit) (stored : Option Int)
        (nowMs : Int) (page_size : Option Nat) (p1 p2 : Option Nat)
        (start_time end_time : Option Int) (fuel : Nat),
      extract_deposits fetch sink stored nowMs page_size p1 start_time end_time
          fuel =
        extract_deposits fetch sink stored nowMs page_size p2 start_time end_time
          fuel) ∧
    (∀ (α : Type) (fetch : Nat → Except PyErr (List α))
        (sink : List α → Nat → Except PyErr Unit) (page_size : Option Nat)
        (p1 p2 : Option Nat) (fuel : Nat),
      extract_assets fetch sink page_size p1 fuel =
        extract_assets fetch sink page_size p2 fuel) ∧
    bitget_etl_module_import =
      .error (.indentationError "unindent does not match any outer indentation level") ∧
    extract_assets (fun _ => .ok ([] : List Unit)) okSink none none 9 =
      ⟨[], [], some (.attributeError "max_page_size")⟩ := by
  refine ⟨?_, ?_, rfl, rfl⟩
  · intro α fetch sink stored nowMs ps p1 p2 st et fuel
    rfl
  · intro α fetch sink ps p1 p2 fuel
    rfl

/-- C10: whenever `extract_customer_list` ends in a raised exception — a
failed page-size resolution, an API failure, the dedup `TypeError` or a sink
failure — the seen-set store `_store_seen_uids` does not run, so the persisted
seen set is unchanged; the store happens only on normal completion of the
pagination loop (and only in polling mode). -/
theorem seen_store_only_on_clean_completion :
    ∀ fetch sink seen0 page_size page_no,
      (extract_customer_list fetch sink seen0 page_size page_no).raised.isSome =
        true →
      (extract_customer_list fetch sink seen0 page_size page_no).seenStore =
        none := by
  intro fetch sink seen0 ps pn
  cases hps : effectivePageSize ps with
  | error e => simp [extract_customer_list, hps]
  | ok eps =>
    cases pn with
    | some p =>
      simp only [extract_customer_list, hps]
      cases hf : fetch p with
      | error e => intro h; rfl
      | ok records =>
        by_cases he : records.isEmpty
        · simp [he]
        · simp only [he, if_false]
          cases hs : sink records p with
          | error e => intro h; rfl
          | ok u => intro h; rfl
    | none =>
      simp only [extract_customer_list, hps]
      cases hr : (clLoop fetch sink eps 1 999998 seen0).raised with
      | some e => intro h; rfl
      | none => intro h; simp at h

/-- C10 witness: a run whose first page request raises leaves the seen-set
store unexecuted. -/
theorem seen_store_only_on_clean_completion_witness :
    (extract_customer_list (fun _ => .error (.apiRequestError "boom")) okSink []
        (some 1000) none).seenStore = none :=
  seen_store_only_on_clean_completion _ _ _ _ _ (by decide)

end Banter
